import Mathlib

/-!
Verification of the DOK TOK standalone Telegram bot
(`standalone-bot-final.js`) against its specification.

The bot is sequential request/response glue: two in-memory maps
(`userSessions` : chat id ↦ authenticated user id, `loginStates` :
chat id ↦ login-dialogue progress), a two-step login dialogue, a
credential check against a `users` table, and an order-listing query
against an `orders` table.

The embedding below is a faithful shallow embedding of that code:

* the two in-memory `Map`s become functions `Int → Option _` with
  explicit `set` / `delete` operations;
* the database tables become lists of records carried in an
  environment `Env`; the two SQL queries become list filter / sort /
  take operations with the same semantics (`WHERE`, `ORDER BY … DESC`,
  `LIMIT 10`);
* `bcrypt.compare(password, hash)` becomes an abstract boolean
  function `Env.verify`;
* a thrown database error is modelled by the flags
  `Env.usersQueryFails` / `Env.ordersQueryFails` selecting the
  `catch` branch of the corresponding handler;
* every handler returns the new state together with a trace of
  observable effects (messages sent, queries issued);
* the dispatcher models the `node-telegram-bot-api` routing the code
  relies on: the generic `message` listener fires first (guarded by
  `!text.startsWith('/')`), then every registered `onText` regexp that
  matches fires in registration order; the regexps `/\/start/`,
  `/\/orders/`, `/\/logout/` have no anchors, so they match by
  substring containment.
-/

namespace DokTok

/-- A row of the `users` table (external, read-only).  `password` is the
stored bcrypt hash. -/
structure UserRecord where
  id : Int
  username : String
  password : String
  status : String
  first_name : String
  last_name : String
  role : String
deriving DecidableEq, Repr

/-- A row of the `orders` table (external, read-only). -/
structure OrderRecord where
  id : Int
  order_number : String
  customer_name : String
  total_amount : Int
  status : String
  created_at : Int
  product_type : String
  unit : String
  quantity : Int
  price : Int
  sales_officer_id : Int
deriving DecidableEq, Repr

/-- The login-dialogue progress stored in `loginStates`:
`{ step: 'username' }` or `{ step: 'password', username }`. -/
inductive LoginState where
  | username : LoginState
  | password (username : String) : LoginState
deriving DecidableEq, Repr

/-- The bot's mutable in-memory state: the two `Map`s of the
`StandaloneDokTokBot` class. -/
structure BotState where
  userSessions : Int → Option Int
  loginStates : Int → Option LoginState

/-- `Map.prototype.set`. -/
def mapSet {α : Type} (m : Int → Option α) (k : Int) (v : α) : Int → Option α :=
  fun c => if c = k then some v else m c

/-- `Map.prototype.delete`. -/
def mapDelete {α : Type} (m : Int → Option α) (k : Int) : Int → Option α :=
  fun c => if c = k then none else m c

/-- Observable effects of a handler: outbound chat messages and
database queries, in the order they are issued. -/
inductive Effect where
  | sendMessage (chatId : Int) (text : String) : Effect
  | usersQuery (username : String) : Effect
  | ordersQuery (userId : Int) : Effect
deriving DecidableEq, Repr

/-- The external collaborators: password-hash verification
(`bcrypt.compare(password, storedHash)`), locale date rendering,
the two database tables, and whether each query throws. -/
structure Env where
  verify : String → String → Bool
  formatDate : Int → String
  users : List UserRecord
  orders : List OrderRecord
  usersQueryFails : Bool
  ordersQueryFails : Bool

/-- Boolean test that `p` is an initial segment of `l` (on characters). -/
def chPre : List Char → List Char → Bool
  | [], _ => true
  | _ :: _, [] => false
  | p :: ps, c :: cs => p == c && chPre ps cs

/-- Boolean test that `pat` occurs as a contiguous run inside `l`. -/
def chSub (pat : List Char) : List Char → Bool
  | [] => chPre pat []
  | c :: cs => chPre pat (c :: cs) || chSub pat cs

/-- `text.startsWith('/')`. -/
def slashStart (s : String) : Bool :=
  chPre ['/'] s.data

/-- Unanchored regexp containment: `/\/start/.test(text)` etc. is
substring containment of the literal pattern. -/
def textHas (s pat : String) : Bool :=
  chSub pat.data s.data

/-! ### Reply texts (verbatim from the source) -/

/-- Reply of the `/start` handler. -/
def welcomeMsg : String :=
  "🏢 Welcome to DOK TOK Sales Order Management\n\nPlease login to access your orders:\n📝 Send your username to begin"

/-- Reply of `/orders` without an active session. -/
def loginRequiredMsg : String := "❌ Please login first using /start"

/-- Reply of `/logout`. -/
def logoutMsg : String := "✅ Logged out successfully"

/-- Reply of the login flow when no dialogue state exists. -/
def restartPromptMsg : String := "❌ Please start with /start command"

/-- Reply after the username step. -/
def passwordPromptMsg : String := "🔐 Now send your password:"

/-- Reply when the user lookup returns zero rows. -/
def invalidUserMsg : String := "❌ Invalid username or user not approved"

/-- Reply when the stored hash does not verify. -/
def invalidPasswordMsg : String := "❌ Invalid password"

/-- Reply of the `catch` branch of `authenticateUser`. -/
def loginFailedMsg : String := "❌ Login failed. Please try /start again"

/-- Reply when the order query returns zero rows. -/
def noOrdersMsg : String := "📭 No orders found"

/-- Reply of the `catch` branch of `showUserOrders`. -/
def ordersErrorMsg : String := "❌ Error loading orders"

/-- The greeting sent on successful login. -/
def welcomeUserMsg (u : UserRecord) : String :=
  "✅ Welcome " ++ u.first_name ++ " " ++ u.last_name ++ "!\n📊 Role: " ++ u.role ++
    "\n\nAvailable commands:\n📋 /orders - View your orders\n🚪 /logout - Logout"

/-! ### Database queries -/

/-- `SELECT * FROM users WHERE username = $1 AND status = 'approved'`:
the rows of the table matching the filter, in table order. -/
def usersQueryRows (env : Env) (username : String) : List UserRecord :=
  env.users.filter (fun u => u.username == username && u.status == "approved")

/-- The `ORDER BY created_at DESC` ordering on order rows. -/
def ordersLe (a b : OrderRecord) : Prop :=
  b.created_at ≤ a.created_at

instance : DecidableRel ordersLe :=
  fun a b => inferInstanceAs (Decidable (b.created_at ≤ a.created_at))

instance : IsTotal OrderRecord ordersLe :=
  ⟨fun a b => le_total b.created_at a.created_at⟩

instance : IsTrans OrderRecord ordersLe :=
  ⟨fun _ _ _ hab hbc => le_trans hbc hab⟩

/-- `SELECT … FROM orders WHERE sales_officer_id = $1 ORDER BY
created_at DESC LIMIT 10`. -/
def ordersQueryRows (env : Env) (userId : Int) : List OrderRecord :=
  (((env.orders.filter (fun o => o.sales_officer_id == userId)).insertionSort ordersLe).take 10)

/-! ### Order formatting -/

/-- The three-way status glyph. -/
def statusIcon (s : String) : String :=
  if s == "approved" then "✅" else if s == "pending" then "⏳" else "❌"

/-- One numbered entry of the order list (`idx` is 0-based, rendered
1-based as in the source's `forEach`). -/
def formatOrder (env : Env) (idx : Nat) (o : OrderRecord) : String :=
  toString (idx + 1) ++ ". " ++ statusIcon o.status ++ " *" ++ o.order_number ++ "*\n" ++
    "   Customer: " ++ o.customer_name ++ "\n" ++
    "   Product: " ++ o.product_type ++ " (" ++ o.unit ++ ")\n" ++
    "   Quantity: " ++ toString o.quantity ++ "\n" ++
    "   Amount: " ++ toString o.total_amount ++ " ETB\n" ++
    "   Status: " ++ o.status ++ "\n" ++
    "   Date: " ++ env.formatDate o.created_at ++ "\n\n"

/-- The full `📋 *Your Recent Orders:*` message built by the `forEach`. -/
def formatOrders (env : Env) (orders : List OrderRecord) : String :=
  "📋 *Your Recent Orders:*\n\n" ++ String.join (orders.mapIdx (fun i o => formatOrder env i o))

/-! ### Handlers -/

/-- `showUserOrders(chatId, userId)`. -/
def showUserOrders (env : Env) (st : BotState) (chatId : Int) (userId : Int) :
    BotState × List Effect :=
  if env.ordersQueryFails then
    (st, [Effect.ordersQuery userId, Effect.sendMessage chatId ordersErrorMsg])
  else
    let orders := ordersQueryRows env userId
    if orders.isEmpty then
      (st, [Effect.ordersQuery userId, Effect.sendMessage chatId noOrdersMsg])
    else
      (st, [Effect.ordersQuery userId, Effect.sendMessage chatId (formatOrders env orders)])

/-- `authenticateUser(chatId, username, password)`.  Every branch —
zero rows, hash mismatch, success, thrown error — deletes the
login-dialogue entry; only the success branch writes `userSessions`. -/
def authenticateUser (env : Env) (st : BotState) (chatId : Int)
    (username password : String) : BotState × List Effect :=
  if env.usersQueryFails then
    ({ st with loginStates := mapDelete st.loginStates chatId },
     [Effect.usersQuery username, Effect.sendMessage chatId loginFailedMsg])
  else
    match usersQueryRows env username with
    | [] =>
      ({ st with loginStates := mapDelete st.loginStates chatId },
       [Effect.usersQuery username, Effect.sendMessage chatId invalidUserMsg])
    | user :: _ =>
      if env.verify password user.password then
        ({ userSessions := mapSet st.userSessions chatId user.id,
           loginStates := mapDelete st.loginStates chatId },
         [Effect.usersQuery username, Effect.sendMessage chatId (welcomeUserMsg user)])
      else
        ({ st with loginStates := mapDelete st.loginStates chatId },
         [Effect.usersQuery username, Effect.sendMessage chatId invalidPasswordMsg])

/-- `handleLoginFlow(msg)`: no dialogue state → restart prompt;
awaiting username → store it and prompt for the password; awaiting
password → authenticate. -/
def handleLoginFlow (env : Env) (st : BotState) (chatId : Int) (text : String) :
    BotState × List Effect :=
  match st.loginStates chatId with
  | none =>
    (st, [Effect.sendMessage chatId restartPromptMsg])
  | some LoginState.username =>
    ({ st with loginStates := mapSet st.loginStates chatId (LoginState.password text) },
     [Effect.sendMessage chatId passwordPromptMsg])
  | some (LoginState.password username) =>
    authenticateUser env st chatId username text

/-- The `/start` `onText` handler: sends the welcome prompt and sets the
dialogue to awaiting-username.  It does not touch `userSessions`. -/
def startHandler (st : BotState) (chatId : Int) : BotState × List Effect :=
  ({ st with loginStates := mapSet st.loginStates chatId LoginState.username },
   [Effect.sendMessage chatId welcomeMsg])

/-- The `/orders` `onText` handler. -/
def ordersHandler (env : Env) (st : BotState) (chatId : Int) : BotState × List Effect :=
  match st.userSessions chatId with
  | none => (st, [Effect.sendMessage chatId loginRequiredMsg])
  | some userId => showUserOrders env st chatId userId

/-- The `/logout` `onText` handler: unconditional double delete plus
confirmation. -/
def logoutHandler (st : BotState) (chatId : Int) : BotState × List Effect :=
  ({ userSessions := mapDelete st.userSessions chatId,
     loginStates := mapDelete st.loginStates chatId },
   [Effect.sendMessage chatId logoutMsg])

/-- One inbound text message through the dispatcher: first the generic
`message` listener (login flow, guarded by `!text.startsWith('/')`),
then each registered `onText` regexp that matches, in registration
order (`/\/start/`, `/\/orders/`, `/\/logout/`, unanchored, so matched
by substring containment; `onlyFirstMatch` is off). -/
def processMessage (env : Env) (st : BotState) (chatId : Int) (text : String) :
    BotState × List Effect :=
  let r1 := if slashStart text then (st, []) else handleLoginFlow env st chatId text
  let r2 := if textHas text "/start" then startHandler r1.1 chatId else (r1.1, [])
  let r3 := if textHas text "/orders" then ordersHandler env r2.1 chatId else (r2.1, [])
  let r4 := if textHas text "/logout" then logoutHandler r3.1 chatId else (r3.1, [])
  (r4.1, r1.2 ++ r2.2 ++ r3.2 ++ r4.2)

/-! ### Concrete fixtures used by witnesses and counterexamples -/

/-- An environment with empty tables. -/
def env0 : Env :=
  { verify := fun _ _ => false, formatDate := fun _ => "", users := [], orders := [],
    usersQueryFails := false, ordersQueryFails := false }

/-- An approved sample user. -/
def alice : UserRecord :=
  { id := 1, username := "alice", password := "pw", status := "approved",
    first_name := "Alice", last_name := "Doe", role := "sales_officer" }

/-- An environment whose `users` table holds exactly `alice`; the sample
verifier accepts a password exactly when it equals the stored hash. -/
def envAlice : Env :=
  { verify := fun p h => p == h, formatDate := fun _ => "", users := [alice], orders := [],
    usersQueryFails := false, ordersQueryFails := false }

/-- The empty bot state (both `Map`s empty). -/
def st0 : BotState :=
  { userSessions := fun _ => none, loginStates := fun _ => none }

/-- A state where conversation `7` is logged in as user `42`. -/
def stSess : BotState :=
  { userSessions := fun c => if c = 7 then some 42 else none,
    loginStates := fun _ => none }

/-- A state where conversation `7` awaits a username. -/
def stAwaitUser : BotState :=
  { userSessions := fun _ => none,
    loginStates := fun c => if c = 7 then some LoginState.username else none }

/-- A state where conversation `7` awaits the password for `"alice"`. -/
def stAwaitPass : BotState :=
  { userSessions := fun _ => none,
    loginStates := fun c => if c = 7 then some (LoginState.password "alice") else none }

/-! ### Helper lemmas -/

theorem mapDelete_self {α : Type} (m : Int → Option α) (k : Int) :
    mapDelete m k k = none := by
  simp [mapDelete]

theorem mapDelete_idem {α : Type} (m : Int → Option α) (k : Int) :
    mapDelete (mapDelete m k) k = mapDelete m k := by
  funext c
  by_cases h : c = k <;> simp [mapDelete, h]

theorem processMessage_start (env : Env) (st : BotState) (chatId : Int) :
    processMessage env st chatId "/start" = startHandler st chatId := rfl

theorem processMessage_logout (env : Env) (st : BotState) (chatId : Int) :
    processMessage env st chatId "/logout" = logoutHandler st chatId := rfl

theorem processMessage_orders (env : Env) (st : BotState) (chatId : Int) :
    processMessage env st chatId "/orders" = ordersHandler env st chatId := by
  show ((ordersHandler env st chatId).1,
      (ordersHandler env st chatId).2 ++ ([] : List Effect)) = _
  simp

/-- A conversation's row in `usersQueryRows` is exactly a table row with
the submitted username and approved status. -/
theorem mem_usersQueryRows {env : Env} {username : String} {u : UserRecord} :
    u ∈ usersQueryRows env username ↔
      u ∈ env.users ∧ u.username = username ∧ u.status = "approved" := by
  simp [usersQueryRows, List.mem_filter, and_assoc]

/-- With pairwise-distinct usernames the lookup returns at most one row. -/
theorem usersQueryRows_subsingleton (env : Env) (username : String)
    (huniq : env.users.Pairwise (fun a b => a.username ≠ b.username)) :
    usersQueryRows env username = [] ∨ ∃ u, usersQueryRows env username = [u] := by
  have hp : (usersQueryRows env username).Pairwise (fun a b => a.username ≠ b.username) :=
    List.Pairwise.sublist (List.filter_sublist _) huniq
  cases hrows : usersQueryRows env username with
  | nil => exact Or.inl rfl
  | cons a t =>
    cases t with
    | nil => exact Or.inr ⟨a, rfl⟩
    | cons b t2 =>
      exfalso
      have ha : a ∈ usersQueryRows env username := by
        rw [hrows]; exact List.mem_cons_self _ _
      have hb : b ∈ usersQueryRows env username := by
        rw [hrows]; simp
      have ha' := (mem_usersQueryRows.mp ha).2.1
      have hb' := (mem_usersQueryRows.mp hb).2.1
      rw [hrows] at hp
      exact (List.pairwise_cons.mp hp).1 b (List.mem_cons_self _ _) (ha'.trans hb'.symm)

theorem showUserOrders_state (env : Env) (st : BotState) (chatId userId : Int) :
    (showUserOrders env st chatId userId).1 = st := by
  unfold showUserOrders
  split
  · rfl
  · dsimp only
    split <;> rfl

theorem ordersHandler_state (env : Env) (st : BotState) (chatId : Int) :
    (ordersHandler env st chatId).1 = st := by
  unfold ordersHandler
  cases h : st.userSessions chatId
  · rfl
  · exact showUserOrders_state ..

theorem ordersHandler_no_usersQuery (env : Env) (st : BotState) (chatId : Int) (u : String) :
    Effect.usersQuery u ∉ (ordersHandler env st chatId).2 := by
  unfold ordersHandler showUserOrders
  cases h : st.userSessions chatId
  · simp
  · dsimp only
    split
    · simp
    · split <;> simp

/-! ### Claim theorems -/

/-- C3, counterexample: the claim says handling `/start` removes any
existing Session Store entry for the conversation.  It does not: with
conversation `7` logged in as user `42`, after `/start` the session
entry is still present (the handler only writes `loginStates`). -/
theorem start_keeps_session_cex :
    (processMessage env0 stSess 7 "/start").1.userSessions 7 ≠ none := by decide

/-- C3, amended: handling `/start` sets the Login State Machine entry
for the conversation to awaiting-username and sends the
welcome+instruction reply; the Session Store is left unchanged (an
existing session entry is not removed). -/
theorem start_sets_awaiting_username (env : Env) (st : BotState) (chatId : Int) :
    processMessage env st chatId "/start" =
      ({ st with loginStates := mapSet st.loginStates chatId LoginState.username },
       [Effect.sendMessage chatId welcomeMsg]) := rfl

/-- C5: after `/logout` neither map has an entry for the conversation,
regardless of prior state, and a second `/logout` produces the same
state and the same confirmation reply as the first (idempotent; the
confirmation is sent even when no session existed). -/
theorem logout_clears_idempotent (env : Env) (st : BotState) (chatId : Int) :
    (processMessage env st chatId "/logout").1.userSessions chatId = none ∧
    (processMessage env st chatId "/logout").1.loginStates chatId = none ∧
    processMessage env (processMessage env st chatId "/logout").1 chatId "/logout" =
      processMessage env st chatId "/logout" := by
  refine ⟨?_, ?_, ?_⟩
  · rw [processMessage_logout]; exact mapDelete_self _ _
  · rw [processMessage_logout]; exact mapDelete_self _ _
  · rw [processMessage_logout, processMessage_logout]
    simp [logoutHandler, mapDelete_idem]

/-- C6: every completed authentication attempt — success, unknown or
unapproved username, wrong password, or datastore error — deletes the
login-dialogue entry for the conversation. -/
theorem auth_attempt_clears_login_state (env : Env) (st : BotState) (chatId : Int)
    (username password : String) :
    (authenticateUser env st chatId username password).1.loginStates chatId = none := by
  unfold authenticateUser
  split
  · exact mapDelete_self _ _
  · split
    · exact mapDelete_self _ _
    · split
      · exact mapDelete_self _ _
      · exact mapDelete_self _ _

/-- C7: with no session entry, `/orders` replies with the login-required
message, issues no datastore query (the effect trace holds no query
effect), and leaves the state unchanged. -/
theorem orders_requires_login (env : Env) (st : BotState) (chatId : Int)
    (h : st.userSessions chatId = none) :
    processMessage env st chatId "/orders" =
      (st, [Effect.sendMessage chatId loginRequiredMsg]) := by
  rw [processMessage_orders]
  unfold ordersHandler
  rw [h]

theorem orders_requires_login_witness :
    processMessage env0 st0 7 "/orders" = (st0, [Effect.sendMessage 7 loginRequiredMsg]) :=
  orders_requires_login env0 st0 7 rfl

/-- C8: a non-command text with no dialogue state gets the restart
prompt and changes neither map; with a dialogue state present the text
is consumed as the current step's input — stored as the pending
username at the username step, or passed as the password to the
authenticator at the password step. -/
theorem handleLoginFlow_cases (env : Env) (st : BotState) (chatId : Int) (text : String) :
    (st.loginStates chatId = none →
      handleLoginFlow env st chatId text =
        (st, [Effect.sendMessage chatId restartPromptMsg])) ∧
    (st.loginStates chatId = some LoginState.username →
      handleLoginFlow env st chatId text =
        ({ st with loginStates := mapSet st.loginStates chatId (LoginState.password text) },
         [Effect.sendMessage chatId passwordPromptMsg])) ∧
    (∀ u, st.loginStates chatId = some (LoginState.password u) →
      handleLoginFlow env st chatId text = authenticateUser env st chatId u text) := by
  refine ⟨fun h => ?_, fun h => ?_, fun u h => ?_⟩ <;>
    · unfold handleLoginFlow
      rw [h]

theorem handleLoginFlow_cases_witness :
    handleLoginFlow env0 st0 7 "alice" = (st0, [Effect.sendMessage 7 restartPromptMsg]) ∧
    handleLoginFlow env0 stAwaitUser 7 "alice" =
      ({ stAwaitUser with
          loginStates := mapSet stAwaitUser.loginStates 7 (LoginState.password "alice") },
       [Effect.sendMessage 7 passwordPromptMsg]) ∧
    handleLoginFlow env0 stAwaitPass 7 "pw" = authenticateUser env0 stAwaitPass 7 "alice" "pw" :=
  ⟨(handleLoginFlow_cases env0 st0 7 "alice").1 rfl,
   (handleLoginFlow_cases env0 stAwaitUser 7 "alice").2.1 (by decide),
   (handleLoginFlow_cases env0 stAwaitPass 7 "pw").2.2 "alice" (by decide)⟩

/-- Dispatch of a text that starts with `/` and contains neither
`/start` nor `/logout`: only the `/orders` handler can fire. -/
theorem processMessage_other (env : Env) (st : BotState) (chatId : Int) (text : String)
    (hs : slashStart text = true)
    (h1 : textHas text "/start" = false)
    (h2 : textHas text "/logout" = false) :
    processMessage env st chatId text =
      if textHas text "/orders" then ordersHandler env st chatId else (st, []) := by
  by_cases ho : textHas text "/orders" = true <;>
    simp [processMessage, hs, h1, h2, ho]

/-- C10: a `/`-prefixed text (such as an unrecognized `/help`) is never
fed to the login flow: unless the text matches the `/start` or
`/logout` patterns, both maps are unchanged — in particular any
dialogue entry stays at its current step and the text is not consumed
as a username or password — and no user lookup is issued. -/
theorem slash_text_skips_login_flow (env : Env) (st : BotState) (chatId : Int) (text : String)
    (hs : slashStart text = true)
    (h1 : textHas text "/start" = false)
    (h2 : textHas text "/logout" = false) :
    (processMessage env st chatId text).1.loginStates = st.loginStates ∧
    (processMessage env st chatId text).1.userSessions = st.userSessions ∧
    ∀ u, Effect.usersQuery u ∉ (processMessage env st chatId text).2 := by
  rw [processMessage_other env st chatId text hs h1 h2]
  by_cases ho : textHas text "/orders" = true
  · rw [if_pos ho]
    exact ⟨by rw [ordersHandler_state], by rw [ordersHandler_state],
      fun u => ordersHandler_no_usersQuery env st chatId u⟩
  · rw [if_neg ho]
    exact ⟨rfl, rfl, by simp⟩

theorem slash_text_skips_login_flow_witness :
    (processMessage env0 stAwaitUser 7 "/help").1.loginStates = stAwaitUser.loginStates ∧
    (processMessage env0 stAwaitUser 7 "/help").1.userSessions = stAwaitUser.userSessions ∧
    ∀ u, Effect.usersQuery u ∉ (processMessage env0 stAwaitUser 7 "/help").2 :=
  slash_text_skips_login_flow env0 stAwaitUser 7 "/help" (by decide) (by decide) (by decide)

/-- Two sample orders owned by user `5`. -/
def order1 : OrderRecord :=
  { id := 11, order_number := "ORD-1", customer_name := "C1", total_amount := 100,
    status := "approved", created_at := 20, product_type := "cement", unit := "bag",
    quantity := 2, price := 50, sales_officer_id := 5 }

def order2 : OrderRecord :=
  { id := 12, order_number := "ORD-2", customer_name := "C2", total_amount := 300,
    status := "pending", created_at := 30, product_type := "steel", unit := "ton",
    quantity := 3, price := 100, sales_officer_id := 5 }

/-- An environment whose `orders` table holds `order1` and `order2`. -/
def envOrders : Env :=
  { verify := fun _ _ => false, formatDate := fun _ => "", users := [],
    orders := [order1, order2], usersQueryFails := false, ordersQueryFails := false }

/-- C2: the order listing only contains rows owned by the requesting
user, holds at most 10 rows, and is sorted by creation time descending
(most recent first). -/
theorem listRecentOrders_spec (env : Env) (userId : Int) :
    (∀ o ∈ ordersQueryRows env userId, o.sales_officer_id = userId) ∧
    (ordersQueryRows env userId).length ≤ 10 ∧
    (ordersQueryRows env userId).Sorted ordersLe := by
  unfold ordersQueryRows
  refine ⟨?_, List.length_take_le _ _,
    List.Pairwise.sublist (List.take_sublist _ _) (List.sorted_insertionSort ordersLe _)⟩
  intro o ho
  have h1 := (List.take_sublist _ _).subset ho
  rw [List.mem_insertionSort] at h1
  simpa using List.of_mem_filter h1

theorem listRecentOrders_spec_witness :
    order2.sales_officer_id = 5 ∧
    (ordersQueryRows envOrders 5).length ≤ 10 ∧
    (ordersQueryRows envOrders 5).Sorted ordersLe :=
  ⟨(listRecentOrders_spec envOrders 5).1 order2 (by decide),
   (listRecentOrders_spec envOrders 5).2.1,
   (listRecentOrders_spec envOrders 5).2.2⟩

/-- C9: an authenticated user whose order query returns zero rows gets
the literal no-orders reply, which is distinct from the rendering of an
empty list (the header-only message the `forEach` would produce). -/
theorem empty_orders_reply (env : Env) (st : BotState) (chatId userId : Int)
    (hsess : st.userSessions chatId = some userId)
    (hq : env.ordersQueryFails = false)
    (hempty : ordersQueryRows env userId = []) :
    ordersHandler env st chatId =
      (st, [Effect.ordersQuery userId, Effect.sendMessage chatId noOrdersMsg]) ∧
    noOrdersMsg ≠ formatOrders env [] := by
  constructor
  · unfold ordersHandler
    rw [hsess]
    unfold showUserOrders
    simp [hq, hempty]
  · have h : formatOrders env [] = "📋 *Your Recent Orders:*\n\n" ++ String.join [] := rfl
    rw [h]
    decide

theorem empty_orders_reply_witness :
    ordersHandler env0 stSess 7 =
      (stSess, [Effect.ordersQuery 42, Effect.sendMessage 7 noOrdersMsg]) ∧
    noOrdersMsg ≠ formatOrders env0 [] :=
  empty_orders_reply env0 stSess 7 42 (by decide) rfl rfl

/-- C4, counterexample: the claim says the Authenticator never writes to
the Session Store.  It does: on a successful attempt for conversation
`7` with the approved user `alice`, `authenticateUser` itself creates
the session entry `7 ↦ 1` where none existed before. -/
theorem authenticator_writes_session_cex :
    (authenticateUser envAlice st0 7 "alice" "pw").1.userSessions 7 = some 1 ∧
    st0.userSessions 7 = none := by decide

/-- C4, amended: beyond its single user lookup and one reply, the
Authenticator mutates exactly this state: it deletes the conversation's
login-dialogue entry in every outcome, and on success it itself (not
the caller) writes the Session Store entry for the conversation with
the authenticated user's id. -/
theorem authenticateUser_frame (env : Env) (st : BotState) (chatId : Int)
    (username password : String) :
    (authenticateUser env st chatId username password).1.loginStates =
      mapDelete st.loginStates chatId ∧
    ((authenticateUser env st chatId username password).1.userSessions = st.userSessions ∨
      ∃ u ∈ env.users, u.username = username ∧ u.status = "approved" ∧
        env.verify password u.password = true ∧
        (authenticateUser env st chatId username password).1.userSessions =
          mapSet st.userSessions chatId u.id) ∧
    ∃ m, (authenticateUser env st chatId username password).2 =
      [Effect.usersQuery username, Effect.sendMessage chatId m] := by
  by_cases hq : env.usersQueryFails = true
  · refine ⟨?_, Or.inl ?_, loginFailedMsg, ?_⟩ <;> simp [authenticateUser, hq]
  · cases hrows : usersQueryRows env username with
    | nil =>
      refine ⟨?_, Or.inl ?_, invalidUserMsg, ?_⟩ <;> simp [authenticateUser, hq, hrows]
    | cons user rest =>
      by_cases hv : env.verify password user.password = true
      · have hmem : user ∈ usersQueryRows env username := by
          rw [hrows]; exact List.mem_cons_self _ _
        obtain ⟨h1, h2, h3⟩ := mem_usersQueryRows.mp hmem
        refine ⟨?_, Or.inr ⟨user, h1, h2, h3, hv, ?_⟩, welcomeUserMsg user, ?_⟩ <;>
          simp [authenticateUser, hq, hrows, hv]
      · refine ⟨?_, Or.inl ?_, invalidPasswordMsg, ?_⟩ <;>
          simp [authenticateUser, hq, hrows, hv]

/-- C1: with a responsive datastore and pairwise-distinct usernames in
the `users` table (the spec's "look up exactly one user record"), an
attempt succeeds — session entry written for the conversation, welcome
reply sent — exactly when the table holds a record with the submitted
username, approved status, and a hash verifying against the submitted
password; in every other case the Session Store is untouched and one of
the two failure replies is sent. -/
theorem authenticate_succeeds_iff (env : Env) (st : BotState) (chatId : Int)
    (username password : String)
    (hq : env.usersQueryFails = false)
    (huniq : env.users.Pairwise (fun a b => a.username ≠ b.username)) :
    ((∃ u ∈ env.users, u.username = username ∧ u.status = "approved" ∧
        env.verify password u.password = true) →
      ∃ u ∈ env.users, u.username = username ∧ u.status = "approved" ∧
        env.verify password u.password = true ∧
        authenticateUser env st chatId username password =
          ({ userSessions := mapSet st.userSessions chatId u.id,
             loginStates := mapDelete st.loginStates chatId },
           [Effect.usersQuery username, Effect.sendMessage chatId (welcomeUserMsg u)])) ∧
    ((¬ ∃ u ∈ env.users, u.username = username ∧ u.status = "approved" ∧
        env.verify password u.password = true) →
      (authenticateUser env st chatId username password).1.userSessions = st.userSessions ∧
      ((authenticateUser env st chatId username password).2 =
          [Effect.usersQuery username, Effect.sendMessage chatId invalidUserMsg] ∨
        (authenticateUser env st chatId username password).2 =
          [Effect.usersQuery username, Effect.sendMessage chatId invalidPasswordMsg])) := by
  rcases usersQueryRows_subsingleton env username huniq with hrows | ⟨w, hrows⟩
  · constructor
    · rintro ⟨u, hu, h2, h3, _⟩
      have hmem := mem_usersQueryRows.mpr ⟨hu, h2, h3⟩
      rw [hrows] at hmem
      exact absurd hmem (List.not_mem_nil _)
    · intro _
      exact ⟨by simp [authenticateUser, hq, hrows], Or.inl (by simp [authenticateUser, hq, hrows])⟩
  · have hwmem : w ∈ usersQueryRows env username := by
      rw [hrows]; exact List.mem_cons_self _ _
    obtain ⟨hw1, hw2, hw3⟩ := mem_usersQueryRows.mp hwmem
    by_cases hv : env.verify password w.password = true
    · constructor
      · intro _
        exact ⟨w, hw1, hw2, hw3, hv, by simp [authenticateUser, hq, hrows, hv]⟩
      · intro hno
        exact absurd ⟨w, hw1, hw2, hw3, hv⟩ hno
    · constructor
      · rintro ⟨u, hu, h2, h3, h4⟩
        have hmem := mem_usersQueryRows.mpr ⟨hu, h2, h3⟩
        rw [hrows] at hmem
        have hu_eq : u = w := by simpa using hmem
        exact absurd (hu_eq ▸ h4) hv
      · intro _
        exact ⟨by simp [authenticateUser, hq, hrows, hv],
          Or.inr (by simp [authenticateUser, hq, hrows, hv])⟩

theorem authenticate_succeeds_iff_witness :
    ∃ u ∈ envAlice.users, u.username = "alice" ∧ u.status = "approved" ∧
      envAlice.verify "pw" u.password = true ∧
      authenticateUser envAlice st0 7 "alice" "pw" =
        ({ userSessions := mapSet st0.userSessions 7 u.id,
           loginStates := mapDelete st0.loginStates 7 },
         [Effect.usersQuery "alice", Effect.sendMessage 7 (welcomeUserMsg u)]) :=
  (authenticate_succeeds_iff envAlice st0 7 "alice" "pw" rfl (by simp [envAlice])).1
    ⟨alice, by decide, by decide, by decide, by decide⟩

end DokTok
